import Mathlib

/-!
Verification of the python-mini-projects repository specification.

The repository contains two Streamlit dashboards over real-estate CSVs
(`dash.py`, `dashboard.py`, plus notebook checkpoints) and two CLI games
(`number_gussing_game.py`, `dice_rolling_game.py`).  This file gives a
shallow embedding of the data-preparation pipeline and of the game loops,
and proves (or refutes) the specification's testable properties against
that embedding.  Numeric columns are modelled with `ℚ` (the spec speaks
of exact arithmetic); the abnormal float values produced by pandas on a
zero denominator (`inf`/`NaN`) are modelled collectively by the
undefined marker `none`; `NaT` dates are likewise `none`.
-/

namespace MiniProj

/-! ## CLI games

`number_gussing_game.py` wraps `int(input(...))` in `try/except ValueError`
and re-prompts; `dice_rolling_game.py` calls `int(input(...))` for the dice
count with no handler.  Python's `int` parser is modelled by an
explicit digit-string parser; an uncaught exception is an `Except.error`.
-/

/-- The numeric value of a nonempty all-digit character sequence, `none`
otherwise. -/
def digitsVal (l : List Char) : Option ℕ :=
  if l.isEmpty then none
  else if l.all (fun c => c.isDigit) then
    some (l.foldl (fun acc c => 10 * acc + (c.toNat - 48)) 0)
  else none

/-- Python `int(s)`: `some` the integer when `s` is an optionally
negated digit string, `none` when a `ValueError` would be raised. -/
def parseInt (s : String) : Option Int :=
  match s.data with
  | [] => none
  | c :: rest =>
      if c = '-' then (digitsVal rest).map (fun n => -(n : Int))
      else (digitsVal (c :: rest)).map (fun n => (n : Int))

/-- The four things one iteration of the guessing loop can print. -/
inductive GuessOutcome where
  | tooHigh
  | tooLow
  | success
  | invalid
deriving DecidableEq

/-- The message printed for each outcome (source strings of
`number_gussing_game.py`). -/
def guessMessage : GuessOutcome → String
  | .tooHigh => "Too high"
  | .tooLow => "Too low"
  | .success => "Bravo, you did it right!"
  | .invalid => "Please enter a valid number"

/-- The comparison step of `number_gussing_game.py` (lines 7-13): returns
the outcome and whether the `while True` loop continues (`break` only on an
equal guess). -/
def compareGuess (target guess : Int) : GuessOutcome × Bool :=
  if guess > target then (.tooHigh, true)
  else if guess < target then (.tooLow, true)
  else (.success, false)

/-- One iteration of the guessing loop on raw input: the `try/except
ValueError` (lines 5-16) turns an unparsable input into a printed message
and a continued loop. -/
def guessStep (target : Int) (input : String) : GuessOutcome × Bool :=
  match parseInt input with
  | none => (.invalid, true)
  | some g => compareGuess target g

/-- Model of `random.randint(1, 6)`: the random oracle value is reduced into the
inclusive range [1, 6]. -/
def randint1to6 (x : ℕ) : ℕ :=
  1 + x % 6

/-- The roll loop of `dice_rolling_game.py` (lines 11-13): `n` calls to
`random.randint(1, 6)`, fed by the random oracle `rng`, appended in order. -/
def rollDice (n : ℕ) (rng : ℕ → ℕ) : List ℕ :=
  (List.range n).map (fun i => randint1to6 (rng i))

/-- What one iteration of the dice loop does (besides mutating the count). -/
inductive DiceStepResult where
  | rolled : List ℕ → ℕ → DiceStepResult
  | quit : ℕ → DiceStepResult
  | invalidChoice : DiceStepResult
deriving DecidableEq

instance {ε α : Type} [DecidableEq ε] [DecidableEq α] :
    DecidableEq (Except ε α) := by
  intro a b
  cases a <;> cases b
  case error.error e1 e2 =>
    exact if h : e1 = e2 then isTrue (h ▸ rfl)
      else isFalse fun hh => h (by injection hh)
  case error.ok e1 a2 => exact isFalse fun hh => Except.noConfusion hh
  case ok.error a1 e2 => exact isFalse fun hh => Except.noConfusion hh
  case ok.ok a1 a2 =>
    exact if h : a1 = a2 then isTrue (h ▸ rfl)
      else isFalse fun hh => h (by injection hh)

/-- One iteration of the `while True` loop of `dice_rolling_game.py`.
On choice `y` the dice count is read with `int(input(...))` and there is
no `try/except`: an unparsable count raises `ValueError` and the program
terminates (`Except.error`).  `rolled` carries the dice list and the
printed total `sum(dice_result)`. -/
def diceStep (choice : String) (numInput : String) (rng : ℕ → ℕ)
    (rollCount : ℕ) : Except String DiceStepResult :=
  if choice = "y" then
    match parseInt numInput with
    | none => .error "ValueError"
    | some n => .ok (.rolled (rollDice n.toNat rng) (rollDice n.toNat rng).sum)
  else if choice = "n" then .ok (.quit rollCount)
  else .ok .invalidChoice

/-! ## `dash.py`: loaded table, derived metrics, filters

A row of the transactions dataframe after `load_data`.  Categorical and
date columns may be missing (`NaN`/`NaT`, modelled `none`); dates are
abstract day ordinals `ℕ` after `pd.to_datetime(..., errors='coerce')`.
-/

structure Row where
  AREA_EN : Option String := none
  PROP_TYPE_EN : Option String := none
  TRANS_VALUE : ℚ := 0
  PROCEDURE_AREA : ℚ := 0
  INSTANCE_DATE : Option ℕ := none
  meter_price : Option ℚ := none
  yield_est : ℚ := 0
  appreciation_est : ℚ := 0
  roi_est : Option ℚ := none
deriving DecidableEq

/-- pandas float division of a series by a series: a zero denominator
yields an abnormal value (`inf`, `-inf` or `NaN`), modelled collectively
by the undefined marker `none`; otherwise the exact quotient. -/
def fdiv (x y : ℚ) : Option ℚ :=
  if y = 0 then none else some (x / y)

/-- Division where either operand may already be abnormal; an abnormal
operand makes the result abnormal (the only cases arising in `dash.py`,
where a normal numerator never meets an abnormal denominator). -/
def oDiv : Option ℚ → Option ℚ → Option ℚ
  | some x, some y => fdiv x y
  | _, _ => none

/-- Subtraction of a possibly-abnormal value from a constant. -/
def oSub (c : ℚ) : Option ℚ → Option ℚ
  | some x => some (c - x)
  | none => none

/-- Lines 37-40 of `dash.py`: the derived columns.
`meter_price = TRANS_VALUE / PROCEDURE_AREA`; `yield_est` and
`appreciation_est` are the constants `0.065` and `0.156`; `roi_est =
yield_est + appreciation_est - (20 / PROCEDURE_AREA) / meter_price`. -/
def deriveMetrics (r : Row) : Row :=
  { r with
    meter_price := fdiv r.TRANS_VALUE r.PROCEDURE_AREA
    yield_est := 0.065
    appreciation_est := 0.156
    roi_est := oSub (0.065 + 0.156)
      (oDiv (fdiv 20 r.PROCEDURE_AREA) (fdiv r.TRANS_VALUE r.PROCEDURE_AREA)) }

/-- The derivation step applied to the whole table: a plain columnwise
map, so it never drops a row or aborts. -/
def deriveTable (t : List Row) : List Row :=
  t.map deriveMetrics

/-- Model of `series.isin(sel)` on a possibly-missing categorical cell: a missing
value is never a member (pandas `NaN.isin` is `False`), and membership in
an empty selection is `False`. -/
def isinOpt (sel : List String) : Option String → Bool
  | some a => sel.contains a
  | none => false

/-- Model of `series.between(lo, hi)`: inclusive on both ends. -/
def betweenQ (lo hi x : ℚ) : Bool :=
  decide (lo ≤ x) && decide (x ≤ hi)

/-- Model of `df['INSTANCE_DATE'].dt.date >= lo`: `NaT` compares `False`. -/
def dateGe (d : Option ℕ) (lo : ℕ) : Bool :=
  match d with
  | some x => decide (lo ≤ x)
  | none => false

/-- Model of `df['INSTANCE_DATE'].dt.date <= hi`: `NaT` compares `False`. -/
def dateLe (d : Option ℕ) (hi : ℕ) : Bool :=
  match d with
  | some x => decide (x ≤ hi)
  | none => false

/-- The conjunction of the five boolean masks of lines 73-79 of
`dash.py`. -/
def rowPass (selAreas selTypes : List String) (lo hi : ℚ) (dlo dhi : ℕ)
    (r : Row) : Bool :=
  isinOpt selAreas r.AREA_EN && isinOpt selTypes r.PROP_TYPE_EN &&
    betweenQ lo hi r.TRANS_VALUE && dateGe r.INSTANCE_DATE dlo &&
    dateLe r.INSTANCE_DATE dhi

/-- The `filtered_df` of `dash.py` (lines 73-79): boolean-mask selection of
the rows passing all five conditions. -/
def filtered_df (selAreas selTypes : List String) (lo hi : ℚ) (dlo dhi : ℕ)
    (t : List Row) : List Row :=
  t.filter (rowPass selAreas selTypes lo hi dlo dhi)

/-- The `filtered_df` of `.ipynb_checkpoints/dash-checkpoint.py` (lines
46-48): `df.copy()`, then the area `isin` mask only under `if
area_filter:` — an empty selection (falsy list) applies no filter. -/
def filtered_ckpt (areaFilter : List String) (t : List Row) : List Row :=
  if areaFilter.isEmpty then t
  else t.filter (fun r => isinOpt areaFilter r.AREA_EN)

/-- Line 51 of `dash.py`: `sorted(df['AREA_EN'].dropna().unique())`. -/
def obsAreas (t : List Row) : List String :=
  List.insertionSort (fun a b => a ≤ b) (t.filterMap (fun r => r.AREA_EN)).dedup

/-- Line 55 of `dash.py`: `sorted(df['PROP_TYPE_EN'].dropna().unique())`. -/
def obsTypes (t : List Row) : List String :=
  List.insertionSort (fun a b => a ≤ b) (t.filterMap (fun r => r.PROP_TYPE_EN)).dedup

/-- Model of `series.min()`: the least element of a nonempty list, `dflt` standing
for the `NaN` of an empty column. -/
def listMin {α : Type} [LinearOrder α] (dflt : α) : List α → α
  | [] => dflt
  | x :: xs => xs.foldl min x

/-- Model of `series.max()`. -/
def listMax {α : Type} [LinearOrder α] (dflt : α) : List α → α
  | [] => dflt
  | x :: xs => xs.foldl max x

/-- Line 59 of `dash.py`: `df['TRANS_VALUE'].min()`. -/
def obsMinV (t : List Row) : ℚ :=
  listMin 0 (t.map (fun r => r.TRANS_VALUE))

/-- Line 59 of `dash.py`: `df['TRANS_VALUE'].max()`. -/
def obsMaxV (t : List Row) : ℚ :=
  listMax 0 (t.map (fun r => r.TRANS_VALUE))

/-- Line 68 of `dash.py`: `df['INSTANCE_DATE'].min().date()` — pandas
`min` skips `NaT`. -/
def obsMinD (t : List Row) : ℕ :=
  listMin 0 (t.filterMap (fun r => r.INSTANCE_DATE))

/-- Line 69 of `dash.py`: `df['INSTANCE_DATE'].max().date()`. -/
def obsMaxD (t : List Row) : ℕ :=
  listMax 0 (t.filterMap (fun r => r.INSTANCE_DATE))

/-! ## Loading: required columns and the missing-column failure (C3) -/

/-- A parsed delimited file: a header and raw string cells. -/
structure Csv where
  header : List String
  rows : List (List String)
deriving DecidableEq

/-- The load-failure taxonomy: pandas raises `KeyError(column)` when a
required column is absent (the spec calls this `MissingColumnError`), and
a read failure is a parse error. -/
inductive LoadError where
  | missingColumn : String → LoadError
  | parseError : LoadError
deriving DecidableEq

/-- Column access `df[c]`: the column named `c`, or a failure naming `c` when the
header lacks it. -/
def getCol (csv : Csv) (c : String) : Except LoadError (List String) :=
  if csv.header.contains c then
    .ok (csv.rows.map (fun row => row.getD (csv.header.indexOf c) ""))
  else .error (.missingColumn c)

/-- The columns `load_data` of `dash.py` touches, in access order
(line 34, then line 37 twice). -/
def dashRequiredColumns : List String :=
  ["INSTANCE_DATE", "TRANS_VALUE", "PROCEDURE_AREA"]

/-- The column accesses of `load_data` in `dash.py`: each required column
is pulled in order and the first absent one aborts the load with an error
naming it. -/
def load_data_dash (csv : Csv) :
    Except LoadError (List String × List String × List String) :=
  match getCol csv "INSTANCE_DATE" with
  | .error e => .error e
  | .ok instDate =>
      match getCol csv "TRANS_VALUE" with
      | .error e => .error e
      | .ok transValue =>
          match getCol csv "PROCEDURE_AREA" with
          | .error e => .error e
          | .ok procArea => .ok (instDate, transValue, procArea)

/-- The `subset` list of `df.dropna(subset=[...])` in `load_data` of
`dashboard.py` (line 12). -/
def dashboardRequiredColumns : List String :=
  ["Rent", "Area_in_sqft", "Location", "Posted_date"]

/-- The column-presence check of `load_data` in `dashboard.py`:
`dropna(subset=...)` raises `KeyError` naming an absent subset column. -/
def load_data_dashboard_check (csv : Csv) : Except LoadError Unit :=
  match dashboardRequiredColumns.find? (fun c => ! csv.header.contains c) with
  | some c => .error (.missingColumn c)
  | none => .ok ()

/-! ## Date cleaning (C5)

`pd.to_datetime(..., errors='coerce')` is modelled by an abstract partial
parser: a cell parses to a day ordinal exactly when it is a digit string,
and any unparsable cell coerces to the missing sentinel `none` (`NaT`).
-/

/-- Abstract stand-in for `pd.to_datetime(s, errors='coerce')` on one
cell. -/
def to_datetime_coerce (s : String) : Option ℕ :=
  digitsVal s.data

/-- Line 34 of `dash.py`: the `INSTANCE_DATE` column is coerced in place
and nothing else happens — no row is dropped afterwards. -/
def dashDatesStep (dates : List String) : List (Option ℕ) :=
  dates.map to_datetime_coerce

/-- A row of `dubai_properties.csv` as `dashboard.py` uses it, before
date parsing. -/
structure RentRow where
  Rent : ℚ := 0
  Area_in_sqft : ℚ := 0
  Location : String := ""
  Posted_date_raw : String := ""
deriving DecidableEq

/-- Line 14 of `dashboard.py`: attach the coerced `Posted_date` column. -/
def coerceRow (r : RentRow) : RentRow × Option ℕ :=
  (r, to_datetime_coerce r.Posted_date_raw)

/-- Lines 14-15 of `dashboard.py` (the spec's `CleanDates`): coerce the
date column, then `df.dropna(subset=["Posted_date"])`. -/
def cleanDates (t : List RentRow) : List (RentRow × Option ℕ) :=
  (t.map coerceRow).filter (fun p => p.2.isSome)

/-! ## Group, aggregate, sort descending, top N (C6)

`df_filtered.groupby("Location")["ROI"].mean().sort_values(ascending=False).head(10)`
(`dashboard.py` line 55) over a table of (key, value) pairs.  `groupby`
emits one row per distinct key, in ascending key order; `sort_values` is
modelled as the deterministic stable sort, which on the key-ascending
groupby output orders rows by value descending with ties in ascending key
order.
-/

/-- A grouped row: the group key and the numeric column. -/
abbrev GRow := String × ℚ

/-- The distinct keys of the table in ascending order (the index of a
pandas `groupby`). -/
def sortedKeys (t : List GRow) : List String :=
  List.insertionSort (fun a b => a ≤ b) (t.map Prod.fst).dedup

/-- The value column restricted to one group. -/
def groupVals (k : String) (t : List GRow) : List ℚ :=
  (t.filter (fun r => r.1 == k)).map Prod.snd

/-- The `mean()` of a column. -/
def mean (vs : List ℚ) : ℚ :=
  vs.sum / vs.length

/-- Model of `t.groupby(key)[value].mean()`: one row per distinct key, ascending,
carrying the group mean. -/
def groupMean (t : List GRow) : List GRow :=
  (sortedKeys t).map (fun k => (k, mean (groupVals k t)))

/-- The order of `sort_values(ascending=False)` on a groupby result:
value descending, ties by the ascending key order the groupby emitted. -/
def rDesc (a b : GRow) : Prop :=
  b.2 < a.2 ∨ (a.2 = b.2 ∧ a.1 ≤ b.1)

instance : DecidableRel rDesc := by
  intro a b
  unfold rDesc
  infer_instance

instance : IsTotal GRow rDesc := by
  constructor
  intro a b
  rcases lt_trichotomy a.2 b.2 with h | h | h
  · exact Or.inr (Or.inl h)
  · rcases le_total a.1 b.1 with h1 | h1
    · exact Or.inl (Or.inr ⟨h, h1⟩)
    · exact Or.inr (Or.inr ⟨h.symm, h1⟩)
  · exact Or.inl (Or.inl h)

instance : IsTrans GRow rDesc := by
  constructor
  intro a b c hab hbc
  rcases hab with h1 | ⟨h1, h1k⟩ <;> rcases hbc with h2 | ⟨h2, h2k⟩
  · exact Or.inl (h2.trans h1)
  · exact Or.inl (h2 ▸ h1)
  · exact Or.inl (h1 ▸ h2)
  · exact Or.inr ⟨h1.trans h2, h1k.trans h2k⟩

instance : IsAntisymm GRow rDesc := by
  constructor
  intro a b hab hba
  rcases hab with h1 | ⟨h1, h1k⟩
  · rcases hba with h2 | ⟨h2, h2k⟩
    · exact absurd h1 (lt_asymm h2)
    · exact absurd h1 (h2 ▸ lt_irrefl a.2)
  · rcases hba with h2 | ⟨h2, h2k⟩
    · exact absurd h2 (h1 ▸ lt_irrefl a.2)
    · exact Prod.ext (le_antisymm h1k h2k) h1

/-- The composite `.sort_values(ascending=False)` then `.head(n)` after the group
mean: the composite of `dashboard.py` line 55. -/
def aggTop (n : ℕ) (t : List GRow) : List GRow :=
  (List.insertionSort rDesc (groupMean t)).take n

/-! ## Helper lemmas -/

lemma foldl_min_le_init {α : Type} [LinearOrder α] (l : List α) (a : α) :
    l.foldl min a ≤ a := by
  induction l generalizing a with
  | nil => exact le_refl a
  | cons x xs ih => exact (ih (min a x)).trans (min_le_left a x)

lemma foldl_min_le_of_mem {α : Type} [LinearOrder α] (l : List α) (a x : α)
    (hx : x ∈ l) : l.foldl min a ≤ x := by
  induction l generalizing a with
  | nil => cases hx
  | cons y ys ih =>
      rcases List.mem_cons.mp hx with rfl | hmem
      · exact (foldl_min_le_init ys (min a x)).trans (min_le_right a x)
      · exact ih (min a y) hmem

lemma le_foldl_max_init {α : Type} [LinearOrder α] (l : List α) (a : α) :
    a ≤ l.foldl max a := by
  induction l generalizing a with
  | nil => exact le_refl a
  | cons x xs ih => exact (le_max_left a x).trans (ih (max a x))

lemma le_foldl_max_of_mem {α : Type} [LinearOrder α] (l : List α) (a x : α)
    (hx : x ∈ l) : x ≤ l.foldl max a := by
  induction l generalizing a with
  | nil => cases hx
  | cons y ys ih =>
      rcases List.mem_cons.mp hx with rfl | hmem
      · exact (le_max_right a x).trans (le_foldl_max_init ys (max a x))
      · exact ih (max a y) hmem

lemma listMin_le {α : Type} [LinearOrder α] (d : α) (l : List α) (x : α)
    (hx : x ∈ l) : listMin d l ≤ x := by
  cases l with
  | nil => cases hx
  | cons y ys =>
      rcases List.mem_cons.mp hx with rfl | hmem
      · exact foldl_min_le_init ys x
      · exact foldl_min_le_of_mem ys y x hmem

lemma le_listMax {α : Type} [LinearOrder α] (d : α) (l : List α) (x : α)
    (hx : x ∈ l) : x ≤ listMax d l := by
  cases l with
  | nil => cases hx
  | cons y ys =>
      rcases List.mem_cons.mp hx with rfl | hmem
      · exact le_foldl_max_init ys x
      · exact le_foldl_max_of_mem ys y x hmem

/-! ## Concrete sample data used by witnesses and counterexamples -/

/-- A fully populated transaction row with a nonzero area. -/
def wRow1 : Row :=
  { AREA_EN := some "Palm Jumeirah", PROP_TYPE_EN := some "Unit",
    TRANS_VALUE := 10, PROCEDURE_AREA := 4, INSTANCE_DATE := some 3 }

/-- A transaction row whose `PROCEDURE_AREA` is zero. -/
def wRow0 : Row :=
  { AREA_EN := some "Marina", PROP_TYPE_EN := some "Unit",
    TRANS_VALUE := 5, PROCEDURE_AREA := 0, INSTANCE_DATE := some 1 }

/-- A second nonzero-area row with the same `TRANS_VALUE` as `wRow1`. -/
def wRow2 : Row :=
  { AREA_EN := some "Downtown", PROP_TYPE_EN := some "Unit",
    TRANS_VALUE := 10, PROCEDURE_AREA := 7, INSTANCE_DATE := some 5 }

/-! ## Claim C1: meter_price derivation -/

/-- C1: for every loaded row, `meter_price` equals
`TRANS_VALUE / PROCEDURE_AREA` exactly when `PROCEDURE_AREA` is nonzero,
is the undefined marker exactly when `PROCEDURE_AREA` is zero, and the
derivation step processes every row (a zero denominator never aborts the
whole operation). -/
theorem meter_price_division_total (t : List Row) (r r0 : Row)
    (hA : r.PROCEDURE_AREA ≠ 0) (h0 : r0.PROCEDURE_AREA = 0) :
    (deriveMetrics r).meter_price = some (r.TRANS_VALUE / r.PROCEDURE_AREA) ∧
    (deriveMetrics r0).meter_price = none ∧
    (deriveTable t).length = t.length := by
  refine ⟨?_, ?_, by simp [deriveTable]⟩
  · simp [deriveMetrics, fdiv, hA]
  · simp [deriveMetrics, fdiv, h0]

/-- Witness for C1 at concrete rows. -/
theorem meter_price_division_total_witness :
    wRow1.PROCEDURE_AREA ≠ 0 ∧ wRow0.PROCEDURE_AREA = 0 ∧
    ((deriveMetrics wRow1).meter_price =
        some (wRow1.TRANS_VALUE / wRow1.PROCEDURE_AREA) ∧
      (deriveMetrics wRow0).meter_price = none ∧
      (deriveTable [wRow1, wRow0]).length = [wRow1, wRow0].length) :=
  ⟨by decide, by decide,
    meter_price_division_total [wRow1, wRow0] wRow1 wRow0 (by decide) (by decide)⟩

/-! ## Claim C10: closed form of roi_est -/

lemma roi_est_formula (r : Row) (hA : r.PROCEDURE_AREA ≠ 0)
    (hV : r.TRANS_VALUE ≠ 0) :
    (deriveMetrics r).roi_est = some (0.065 + 0.156 - 20 / r.TRANS_VALUE) := by
  have hm : r.TRANS_VALUE / r.PROCEDURE_AREA ≠ 0 := div_ne_zero hV hA
  have key : (20 : ℚ) / r.PROCEDURE_AREA / (r.TRANS_VALUE / r.PROCEDURE_AREA) =
      20 / r.TRANS_VALUE := by
    field_simp
  simp only [deriveMetrics, fdiv, if_neg hA, oDiv, if_neg hm, oSub, key]

/-- C10: with nonzero area and value, `roi_est` equals
`0.065 + 0.156 - 20 / TRANS_VALUE` exactly, so it does not depend on
`PROCEDURE_AREA`: any row with the same `TRANS_VALUE` and any nonzero
area has the same `roi_est`. -/
theorem roi_est_closed_form (r r2 : Row) (hA : r.PROCEDURE_AREA ≠ 0)
    (hV : r.TRANS_VALUE ≠ 0) (hA2 : r2.PROCEDURE_AREA ≠ 0)
    (hveq : r2.TRANS_VALUE = r.TRANS_VALUE) :
    (deriveMetrics r).roi_est = some (0.065 + 0.156 - 20 / r.TRANS_VALUE) ∧
    (deriveMetrics r2).roi_est = (deriveMetrics r).roi_est := by
  have h1 := roi_est_formula r hA hV
  have h2 := roi_est_formula r2 hA2 (by rw [hveq]; exact hV)
  exact ⟨h1, by rw [h2, h1, hveq]⟩

/-- Witness for C10: two rows with value 10 and areas 4 and 7. -/
theorem roi_est_closed_form_witness :
    wRow1.PROCEDURE_AREA ≠ 0 ∧ wRow1.TRANS_VALUE ≠ 0 ∧
    wRow2.PROCEDURE_AREA ≠ 0 ∧ wRow2.TRANS_VALUE = wRow1.TRANS_VALUE ∧
    ((deriveMetrics wRow1).roi_est =
        some (0.065 + 0.156 - 20 / wRow1.TRANS_VALUE) ∧
      (deriveMetrics wRow2).roi_est = (deriveMetrics wRow1).roi_est) :=
  ⟨by decide, by decide, by decide, by decide,
    roi_est_closed_form wRow1 wRow2 (by decide) (by decide) (by decide) (by decide)⟩

/-! ## Claim C8: the guessing loop -/

/-- C8: with target 50, a guess of 70 prints "Too high" and continues, 30
prints "Too low" and continues, 50 prints the success message and breaks;
and for every target the loop breaks exactly on an equal guess. -/
theorem guessing_loop_spec (t g : Int) :
    guessStep 50 "70" = (GuessOutcome.tooHigh, true) ∧
    guessStep 50 "30" = (GuessOutcome.tooLow, true) ∧
    guessStep 50 "50" = (GuessOutcome.success, false) ∧
    guessMessage GuessOutcome.tooHigh = "Too high" ∧
    guessMessage GuessOutcome.tooLow = "Too low" ∧
    ((compareGuess t g).2 = false ↔ g = t) := by
  refine ⟨by decide, by decide, by decide, rfl, rfl, ?_⟩
  unfold compareGuess
  split_ifs with h1 h2
  · exact ⟨fun hh => absurd hh (by decide), fun hh => absurd hh (by omega)⟩
  · exact ⟨fun hh => absurd hh (by decide), fun hh => absurd hh (by omega)⟩
  · exact ⟨fun _ => by omega, fun _ => rfl⟩

/-! ## Claim C9: dice rolls -/

/-- C9: a roll of `n` dice yields exactly `n` values, each in `[1, 6]`,
and the total printed by the dice loop is their sum. -/
theorem dice_roll_spec (n : ℕ) (rng : ℕ → ℕ) (x : ℕ)
    (hx : x ∈ rollDice n rng) (s : String) (c : ℕ) (rolls : List ℕ)
    (total : ℕ)
    (hstep : diceStep "y" s rng c = Except.ok (DiceStepResult.rolled rolls total)) :
    (rollDice n rng).length = n ∧ 1 ≤ x ∧ x ≤ 6 ∧ total = rolls.sum := by
  obtain ⟨i, _, hxi⟩ := List.mem_map.mp hx
  refine ⟨by simp [rollDice], ?_, ?_, ?_⟩
  · rw [← hxi]
    unfold randint1to6
    omega
  · rw [← hxi]
    unfold randint1to6
    have : rng i % 6 < 6 := Nat.mod_lt _ (by omega)
    omega
  · simp only [diceStep, if_pos] at hstep
    cases hps : parseInt s with
    | none => rw [hps] at hstep; cases hstep
    | some m =>
        rw [hps] at hstep
        have h2 := (Except.ok.injEq _ _).mp hstep
        injection h2 with ha hb
        rw [← ha, ← hb]

/-- Witness for C9: two dice with the identity oracle. -/
theorem dice_roll_spec_witness :
    1 ∈ rollDice 2 (fun i => i) ∧
    diceStep "y" "2" (fun i => i) 0 =
      Except.ok (DiceStepResult.rolled [1, 2] 3) ∧
    ((rollDice 2 (fun i => i)).length = 2 ∧ 1 ≤ 1 ∧ 1 ≤ 6 ∧
      3 = [1, 2].sum) :=
  ⟨by decide, by decide,
    dice_roll_spec 2 (fun i => i) 1 (by decide) "2" 0 [1, 2] 3 (by decide)⟩

/-! ## Claim C7: invalid numeric input in the CLI games -/

/-- C7 counterexample: in the dice game, a non-integer dice count is not
caught — `int(input(...))` raises `ValueError` with no handler and the
program terminates instead of re-prompting. -/
theorem invalid_input_dice_cex :
    diceStep "y" "three" (fun _ => 0) 0 = Except.error "ValueError" := by
  decide

/-- C7 amended: the number-guessing game catches unparsable numeric input,
prints "Please enter a valid number" and keeps looping; the dice game's
numeric prompt has no handler, so unparsable input terminates the program
with an uncaught `ValueError`. -/
theorem invalid_input_handling (t : Int) (s s2 : String) (rng : ℕ → ℕ)
    (c : ℕ) (hs : parseInt s = none) (hs2 : parseInt s2 = none) :
    guessStep t s = (GuessOutcome.invalid, true) ∧
    guessMessage GuessOutcome.invalid = "Please enter a valid number" ∧
    diceStep "y" s2 rng c = Except.error "ValueError" := by
  refine ⟨?_, rfl, ?_⟩
  · unfold guessStep
    rw [hs]
  · unfold diceStep
    rw [hs2]
    simp

/-- Witness for C7 (amended) at concrete unparsable inputs. -/
theorem invalid_input_handling_witness :
    parseInt "seven" = none ∧ parseInt "3.5" = none ∧
    (guessStep 50 "seven" = (GuessOutcome.invalid, true) ∧
      guessMessage GuessOutcome.invalid = "Please enter a valid number" ∧
      diceStep "y" "3.5" (fun _ => 0) 0 = Except.error "ValueError") :=
  ⟨by decide, by decide,
    invalid_input_handling 50 "seven" "3.5" (fun _ => 0) 0 (by decide) (by decide)⟩

/-! ## Claim C2: filter semantics -/

/-- C2 counterexample: a row that passes the property-type, value-range
and date-range conditions is still excluded by `filtered_df` when the
area selection is empty — an empty selection is not "no restriction" in
`dash.py`, it excludes every row. -/
theorem filter_empty_selection_cex :
    isinOpt ["Unit"] wRow1.PROP_TYPE_EN = true ∧
    betweenQ 0 20 wRow1.TRANS_VALUE = true ∧
    dateGe wRow1.INSTANCE_DATE 0 = true ∧
    dateLe wRow1.INSTANCE_DATE 5 = true ∧
    filtered_df [] ["Unit"] 0 20 0 5 [wRow1] = [] := by
  decide

/-- C2 amended: `filtered_df` of `dash.py` returns exactly the rows
satisfying the conjunction of the four conditions, but an empty
categorical selection excludes every row (membership in an empty list is
false); the checkpoint script's filter is the one where an empty area
selection imposes no restriction. -/
theorem filter_conjunction_semantics (sa st : List String) (lo hi : ℚ)
    (dlo dhi : ℕ) (t : List Row) (r : Row) (af : List String)
    (haf : af ≠ []) :
    (r ∈ filtered_df sa st lo hi dlo dhi t ↔
      r ∈ t ∧ isinOpt sa r.AREA_EN = true ∧ isinOpt st r.PROP_TYPE_EN = true ∧
        betweenQ lo hi r.TRANS_VALUE = true ∧
        dateGe r.INSTANCE_DATE dlo = true ∧
        dateLe r.INSTANCE_DATE dhi = true) ∧
    filtered_df [] st lo hi dlo dhi t = [] ∧
    filtered_ckpt [] t = t ∧
    (r ∈ filtered_ckpt af t ↔ r ∈ t ∧ isinOpt af r.AREA_EN = true) := by
  refine ⟨?_, ?_, ?_, ?_⟩
  · simp [filtered_df, List.mem_filter, rowPass, Bool.and_eq_true, and_assoc]
  · rw [filtered_df]
    apply List.filter_eq_nil_iff.mpr
    intro a _
    rw [rowPass]
    cases a.AREA_EN <;> simp [isinOpt]
  · simp [filtered_ckpt]
  · have hemp : af.isEmpty = false := by
      cases af with
      | nil => exact absurd rfl haf
      | cons x l => rfl
    simp [filtered_ckpt, hemp, List.mem_filter]

/-- Witness for C2 (amended) at a concrete one-row table. -/
theorem filter_conjunction_semantics_witness :
    (["Palm Jumeirah"] : List String) ≠ [] ∧
    ((wRow1 ∈ filtered_df ["Palm Jumeirah"] ["Unit"] 0 20 0 5 [wRow1] ↔
        wRow1 ∈ [wRow1] ∧ isinOpt ["Palm Jumeirah"] wRow1.AREA_EN = true ∧
          isinOpt ["Unit"] wRow1.PROP_TYPE_EN = true ∧
          betweenQ 0 20 wRow1.TRANS_VALUE = true ∧
          dateGe wRow1.INSTANCE_DATE 0 = true ∧
          dateLe wRow1.INSTANCE_DATE 5 = true) ∧
      filtered_df [] ["Unit"] 0 20 0 5 [wRow1] = [] ∧
      filtered_ckpt [] [wRow1] = [wRow1] ∧
      (wRow1 ∈ filtered_ckpt ["Palm Jumeirah"] [wRow1] ↔
        wRow1 ∈ [wRow1] ∧ isinOpt ["Palm Jumeirah"] wRow1.AREA_EN = true)) :=
  ⟨by decide,
    filter_conjunction_semantics ["Palm Jumeirah"] ["Unit"] 0 20 0 5 [wRow1]
      wRow1 ["Palm Jumeirah"] (by decide)⟩

/-! ## Claim C3: missing required columns -/

/-- A CSV header lacking `INSTANCE_DATE`. -/
def wCsvA : Csv :=
  { header := ["TRANS_VALUE", "PROCEDURE_AREA"], rows := [] }

/-- A CSV header lacking `Area_in_sqft`. -/
def wCsvB : Csv :=
  { header := ["Rent", "Location"], rows := [] }

/-- C3: if a required column is absent from the input, the load fails
with the missing-column error, and the error names an absent required
column — for `load_data` of `dash.py` and for the `dropna(subset=...)`
presence check of `dashboard.py`. -/
theorem load_missing_column_error (csvA csvB : Csv) (ca cb : String)
    (ha : ca ∈ dashRequiredColumns) (ha2 : csvA.header.contains ca = false)
    (hb : cb ∈ dashboardRequiredColumns)
    (hb2 : csvB.header.contains cb = false) :
    (∃ c, c ∈ dashRequiredColumns ∧ csvA.header.contains c = false ∧
      load_data_dash csvA = Except.error (LoadError.missingColumn c)) ∧
    (∃ c, c ∈ dashboardRequiredColumns ∧ csvB.header.contains c = false ∧
      load_data_dashboard_check csvB =
        Except.error (LoadError.missingColumn c)) := by
  constructor
  · by_cases hI : csvA.header.contains "INSTANCE_DATE" = true
    · by_cases hT : csvA.header.contains "TRANS_VALUE" = true
      · by_cases hP : csvA.header.contains "PROCEDURE_AREA" = true
        · exfalso
          have hcases : ca = "INSTANCE_DATE" ∨ ca = "TRANS_VALUE" ∨
              ca = "PROCEDURE_AREA" := by
            simpa [dashRequiredColumns] using ha
          rcases hcases with rfl | rfl | rfl
          · rw [ha2] at hI; cases hI
          · rw [ha2] at hT; cases hT
          · rw [ha2] at hP; cases hP
        · refine ⟨"PROCEDURE_AREA", by decide, by simpa using hP, ?_⟩
          have hIm : "INSTANCE_DATE" ∈ csvA.header := by simpa using hI
          have hTm : "TRANS_VALUE" ∈ csvA.header := by simpa using hT
          have hPm : "PROCEDURE_AREA" ∉ csvA.header := by simpa using hP
          simp [load_data_dash, getCol, hIm, hTm, hPm]
      · refine ⟨"TRANS_VALUE", by decide, by simpa using hT, ?_⟩
        have hIm : "INSTANCE_DATE" ∈ csvA.header := by simpa using hI
        have hTm : "TRANS_VALUE" ∉ csvA.header := by simpa using hT
        simp [load_data_dash, getCol, hIm, hTm]
    · refine ⟨"INSTANCE_DATE", by decide, by simpa using hI, ?_⟩
      have hIm : "INSTANCE_DATE" ∉ csvA.header := by simpa using hI
      simp [load_data_dash, getCol, hIm]
  · cases hfind : dashboardRequiredColumns.find?
        (fun c => ! csvB.header.contains c) with
    | none =>
        exfalso
        have hall := List.find?_eq_none.mp hfind cb hb
        simp only [Bool.not_eq_true'] at hall
        rw [hb2] at hall
        cases hall rfl
    | some c =>
        have hp := List.find?_some hfind
        refine ⟨c, List.mem_of_find?_eq_some hfind, by simpa using hp, ?_⟩
        unfold load_data_dashboard_check
        rw [hfind]

/-- Witness for C3 at concrete deficient headers. -/
theorem load_missing_column_error_witness :
    "INSTANCE_DATE" ∈ dashRequiredColumns ∧
    wCsvA.header.contains "INSTANCE_DATE" = false ∧
    "Area_in_sqft" ∈ dashboardRequiredColumns ∧
    wCsvB.header.contains "Area_in_sqft" = false ∧
    ((∃ c, c ∈ dashRequiredColumns ∧ wCsvA.header.contains c = false ∧
        load_data_dash wCsvA = Except.error (LoadError.missingColumn c)) ∧
      (∃ c, c ∈ dashboardRequiredColumns ∧ wCsvB.header.contains c = false ∧
        load_data_dashboard_check wCsvB =
          Except.error (LoadError.missingColumn c))) :=
  ⟨by decide, by decide, by decide, by decide,
    load_missing_column_error wCsvA wCsvB "INSTANCE_DATE" "Area_in_sqft"
      (by decide) (by decide) (by decide) (by decide)⟩

/-! ## Claim C4: filtering with the full observed selections -/

/-- A row `load_data` of `dash.py` can produce: its `AREA_EN` cell is
missing (`NaN`), which the loader does not drop. -/
def badRow : Row :=
  { PROP_TYPE_EN := some "Unit", TRANS_VALUE := 1, INSTANCE_DATE := some 0 }

/-- C4 counterexample: on a table whose only row has a missing `AREA_EN`,
filtering with the full observed selections (computed through
`dropna().unique()`) and the observed min/max ranges drops the row, so it
is not a no-op. -/
theorem full_selection_noop_cex :
    filtered_df (obsAreas [badRow]) (obsTypes [badRow]) (obsMinV [badRow])
        (obsMaxV [badRow]) (obsMinD [badRow]) (obsMaxD [badRow]) [badRow] =
      [] ∧
    filtered_df (obsAreas [badRow]) (obsTypes [badRow]) (obsMinV [badRow])
        (obsMaxV [badRow]) (obsMinD [badRow]) (obsMaxD [badRow]) [badRow] ≠
      [badRow] := by
  decide

lemma obsMinV_le (t : List Row) (r : Row) (hr : r ∈ t) :
    obsMinV t ≤ r.TRANS_VALUE :=
  listMin_le 0 _ _ (List.mem_map_of_mem _ hr)

lemma obsMaxV_ge (t : List Row) (r : Row) (hr : r ∈ t) :
    r.TRANS_VALUE ≤ obsMaxV t :=
  le_listMax 0 _ _ (List.mem_map_of_mem _ hr)

lemma obsMinD_le (t : List Row) (r : Row) (d : ℕ) (hr : r ∈ t)
    (hd : r.INSTANCE_DATE = some d) : obsMinD t ≤ d :=
  listMin_le 0 _ _ (List.mem_filterMap.mpr ⟨r, hr, hd⟩)

lemma obsMaxD_ge (t : List Row) (r : Row) (d : ℕ) (hr : r ∈ t)
    (hd : r.INSTANCE_DATE = some d) : d ≤ obsMaxD t :=
  le_listMax 0 _ _ (List.mem_filterMap.mpr ⟨r, hr, hd⟩)

/-- C4 amended: the full-observed-selection filter is a no-op on every
table whose rows all have defined `AREA_EN`, `PROP_TYPE_EN` and
`INSTANCE_DATE` (as `dashboard.py`'s loader guarantees but `dash.py`'s
does not). -/
theorem full_selection_noop (t : List Row)
    (h : ∀ r ∈ t, r.AREA_EN.isSome = true ∧ r.PROP_TYPE_EN.isSome = true ∧
      r.INSTANCE_DATE.isSome = true) :
    filtered_df (obsAreas t) (obsTypes t) (obsMinV t) (obsMaxV t) (obsMinD t)
      (obsMaxD t) t = t := by
  rw [filtered_df]
  apply List.filter_eq_self.mpr
  intro r hr
  obtain ⟨hA, hP, hD⟩ := h r hr
  obtain ⟨a, ha⟩ := Option.isSome_iff_exists.mp hA
  obtain ⟨p, hp⟩ := Option.isSome_iff_exists.mp hP
  obtain ⟨d, hd⟩ := Option.isSome_iff_exists.mp hD
  rw [rowPass]
  simp only [Bool.and_eq_true]
  refine ⟨⟨⟨⟨?_, ?_⟩, ?_⟩, ?_⟩, ?_⟩
  · rw [ha]
    have hmem : a ∈ obsAreas t := by
      unfold obsAreas
      apply (List.perm_insertionSort _ _).mem_iff.mpr
      exact List.mem_dedup.mpr (List.mem_filterMap.mpr ⟨r, hr, ha⟩)
    simpa [isinOpt] using hmem
  · rw [hp]
    have hmem : p ∈ obsTypes t := by
      unfold obsTypes
      apply (List.perm_insertionSort _ _).mem_iff.mpr
      exact List.mem_dedup.mpr (List.mem_filterMap.mpr ⟨r, hr, hp⟩)
    simpa [isinOpt] using hmem
  · simp only [betweenQ, Bool.and_eq_true, decide_eq_true_eq]
    exact ⟨obsMinV_le t r hr, obsMaxV_ge t r hr⟩
  · rw [hd]
    simp only [dateGe, decide_eq_true_eq]
    exact obsMinD_le t r d hr hd
  · rw [hd]
    simp only [dateLe, decide_eq_true_eq]
    exact obsMaxD_ge t r d hr hd

/-- Witness for C4 (amended) at a concrete two-row table with all filter
columns present. -/
theorem full_selection_noop_witness :
    (wRow1.AREA_EN.isSome = true ∧ wRow1.PROP_TYPE_EN.isSome = true ∧
      wRow1.INSTANCE_DATE.isSome = true) ∧
    (wRow2.AREA_EN.isSome = true ∧ wRow2.PROP_TYPE_EN.isSome = true ∧
      wRow2.INSTANCE_DATE.isSome = true) ∧
    filtered_df (obsAreas [wRow1, wRow2]) (obsTypes [wRow1, wRow2])
        (obsMinV [wRow1, wRow2]) (obsMaxV [wRow1, wRow2])
        (obsMinD [wRow1, wRow2]) (obsMaxD [wRow1, wRow2]) [wRow1, wRow2] =
      [wRow1, wRow2] :=
  ⟨by decide, by decide, full_selection_noop [wRow1, wRow2] (by decide)⟩

/-! ## Claim C5: date cleaning -/

/-- C5 counterexample: after `dash.py`'s date step (coercion only, no
drop), a table whose only date cell is unparsable still has its row, now
carrying the missing sentinel — so the returned table does contain a row
with a missing required date. -/
theorem clean_dates_dash_cex :
    dashDatesStep ["unknown"] = [none] ∧
    none ∈ dashDatesStep ["unknown"] := by
  decide

/-- C5 amended: `dashboard.py`'s CleanDates (coerce, then
`dropna(subset=["Posted_date"])`) returns no row with a missing date;
`dash.py`'s date step only coerces and drops nothing, retaining rows
whose date is the missing sentinel. -/
theorem clean_dates_spec (t : List RentRow) (p : RentRow × Option ℕ)
    (hp : p ∈ cleanDates t) (u : List String) :
    p.2.isSome = true ∧ (dashDatesStep u).length = u.length := by
  constructor
  · exact (List.mem_filter.mp hp).2
  · simp [dashDatesStep]

/-- A listing row whose posted date parses. -/
def wRentRow : RentRow :=
  { Rent := 100, Area_in_sqft := 50, Location := "Jvc",
    Posted_date_raw := "5" }

/-- Witness for C5 (amended) at a concrete one-row table. -/
theorem clean_dates_spec_witness :
    (wRentRow, some 5) ∈ cleanDates [wRentRow] ∧
    ((wRentRow, (some 5 : Option ℕ)).2.isSome = true ∧
      (dashDatesStep ["unknown", "7"]).length = ["unknown", "7"].length) :=
  ⟨by decide,
    clean_dates_spec [wRentRow] (wRentRow, some 5) (by decide)
      ["unknown", "7"]⟩

/-! ## Claim C6: idempotence of group-mean, sort descending, take top N -/

lemma filter_key_singleton (t : List GRow) (hnd : (t.map Prod.fst).Nodup)
    (r : GRow) (hr : r ∈ t) :
    t.filter (fun x => x.1 == r.1) = [r] := by
  induction t with
  | nil => cases hr
  | cons a t ih =>
      rw [List.map_cons, List.nodup_cons] at hnd
      obtain ⟨hna, hnd2⟩ := hnd
      rcases List.mem_cons.mp hr with rfl | hmem
      · have hnil : t.filter (fun x => x.1 == r.1) = [] := by
          apply List.filter_eq_nil_iff.mpr
          intro x hx hbeq
          exact hna (beq_iff_eq.mp hbeq ▸ List.mem_map_of_mem Prod.fst hx)
        rw [List.filter_cons_of_pos (by simp), hnil]
      · have hne : (a.1 == r.1) = false := by
          apply beq_eq_false_iff_ne.mpr
          intro heq
          exact hna (heq ▸ List.mem_map_of_mem Prod.fst hmem)
        rw [List.filter_cons_of_neg (by simp [hne])]
        exact ih hnd2 hmem

lemma mean_singleton (v : ℚ) : mean [v] = v := by
  simp [mean]

lemma groupMean_perm_self (t : List GRow) (hnd : (t.map Prod.fst).Nodup) :
    List.Perm (groupMean t) t := by
  unfold groupMean sortedKeys
  rw [List.dedup_eq_self.mpr hnd]
  refine ((List.perm_insertionSort _ _).map _).trans ?_
  rw [List.map_map]
  have he : ∀ r ∈ t, ((fun k => (k, mean (groupVals k t))) ∘ Prod.fst) r = r := by
    intro r hr
    simp only [Function.comp_apply]
    have hg : groupVals r.1 t = [r.2] := by
      unfold groupVals
      rw [filter_key_singleton t hnd r hr]
      rfl
    rw [hg, mean_singleton]
  rw [List.map_congr_left he, List.map_id']

lemma groupMean_keys_nodup (t : List GRow) :
    ((groupMean t).map Prod.fst).Nodup := by
  unfold groupMean
  rw [List.map_map]
  have he : ∀ k ∈ sortedKeys t,
      (Prod.fst ∘ fun k => (k, mean (groupVals k t))) k = k :=
    fun k _ => rfl
  rw [List.map_congr_left he, List.map_id']
  unfold sortedKeys
  exact (List.perm_insertionSort _ _).nodup_iff.mpr (List.nodup_dedup _)

lemma aggTop_keys_nodup (n : ℕ) (t : List GRow) :
    ((aggTop n t).map Prod.fst).Nodup := by
  unfold aggTop
  rw [List.map_take]
  apply List.Nodup.sublist (List.take_sublist _ _)
  exact ((List.perm_insertionSort _ _).map _).nodup_iff.mpr
    (groupMean_keys_nodup t)

lemma aggTop_sorted (n : ℕ) (t : List GRow) :
    List.Sorted rDesc (aggTop n t) := by
  unfold aggTop
  exact List.Pairwise.sublist (List.take_sublist _ _)
    (List.sorted_insertionSort _ _)

lemma aggTop_length_le (n : ℕ) (t : List GRow) : (aggTop n t).length ≤ n := by
  unfold aggTop
  rw [List.length_take]
  exact min_le_left _ _

/-- C6: the composite group-by-key, mean, sort descending, take top `n`
is idempotent: applied to its own output it returns that output
unchanged. -/
theorem agg_sort_topn_idempotent (n : ℕ) (t : List GRow) :
    aggTop n (aggTop n t) = aggTop n t := by
  have key : ∀ u : List GRow, (u.map Prod.fst).Nodup → List.Sorted rDesc u →
      u.length ≤ n → aggTop n u = u := by
    intro u hnd hs hlen
    unfold aggTop
    rw [List.eq_of_perm_of_sorted
      ((List.perm_insertionSort _ _).trans (groupMean_perm_self u hnd))
      (List.sorted_insertionSort _ _) hs]
    exact List.take_of_length_le hlen
  exact key (aggTop n t) (aggTop_keys_nodup n t) (aggTop_sorted n t)
    (aggTop_length_le n t)

end MiniProj
